import Mathlib

/-!
Verification of the HEIC-to-JPEG transcoding pipeline (heic2jpg.py).

The development shallowly embeds the worker function `_convert_one`, the color
management helper `_convert_to_srgb`, the discovery function `find_heif_files`,
and the aggregation loop of `main`.  The file system is a map from path strings
to optional byte contents; the external image codec (Pillow, pillow-heif,
ImageCms) is an oracle record whose fields describe what each external call
returns, following the codec contract of the specification.  Every effectful
step of the worker is recorded in an event log so that temporal claims
(decode happened, save happened before the source was unlinked, and the
destination content at the moment of the unlink) are provable statements
about the embedding.
-/

namespace Heic2Jpg

/-- Byte strings are modelled as lists of naturals. -/
abbrev Bytes := List Nat

/-- A caught exception is identified by its message (the repr the code reports). -/
abbrev Err := String

/-- Opaque handle for a decoded PIL image. -/
abbrev Img := Nat

/-- Opaque handle for a parsed ICC profile object. -/
abbrev Prof := Nat

/-- The file system: a map from path strings to file contents (none = absent). -/
abbrev FS := String → Option Bytes

/-- Point update of the file system (write, or delete when `v = none`). -/
def FS.set (fs : FS) (p : String) (v : Option Bytes) : FS :=
  fun q => if q = p then v else fs q

/-- The three terminal statuses returned by the worker (heic2jpg.py line 187). -/
inductive Status
  | converted
  | skipped
  | failed
deriving DecidableEq, Repr

/-- The `--icc` modes: "srgb" | "keep" | "none" (heic2jpg.py line 265). -/
inductive IccMode
  | srgb
  | keep
  | none
deriving DecidableEq, Repr

/-- Index of the last dot in a character list, if any. -/
def lastDotPos : List Char → Option Nat
  | [] => Option.none
  | c :: cs =>
    match lastDotPos cs with
    | some i => some (i + 1)
    | Option.none => if c = '.' then some 0 else Option.none

/-- Splits a character list on the path separator. -/
def splitSlash : List Char → List Char → List (List Char)
  | [], cur => [cur.reverse]
  | c :: cs, cur =>
    if c = '/' then cur.reverse :: splitSlash cs [] else splitSlash cs (c :: cur)

/-- Lowercases a string character-wise (Python `str.lower` on ASCII paths). -/
def lowerStr (s : String) : String :=
  String.mk (s.data.map Char.toLower)

/-- Uppercases a string character-wise (Python `str.upper` on ASCII paths). -/
def upperStr (s : String) : String :=
  String.mk (s.data.map Char.toUpper)

/-- Python `str.endswith` / the tail match performed by the glob pattern
`*ext` on a file name. -/
def ends_with (s ext : String) : Bool :=
  List.isSuffixOf ext.data s.data

/-- Python `pathlib.PurePath.suffix`: the final extension of the last path
component, including the dot; empty when the name has no dot past its first
character. -/
def suffixOf (path : String) : String :=
  let name := (splitSlash path.data []).getLastD []
  match name with
  | [] => ""
  | c :: rest =>
    match lastDotPos rest with
    | some i => String.mk (List.drop (i + 1) (c :: rest))
    | Option.none => ""

/-- Python `src_path.with_suffix(".jpg")` (heic2jpg.py line 190). -/
def with_suffix_jpg (s : String) : String :=
  s.dropRight (suffixOf s).length ++ ".jpg"

/-- The keyword arguments `_save_jpeg` passes to `im.save` (heic2jpg.py
lines 161-172): `exif` and `icc_profile` are added only when truthy, i.e.
present and non-empty. -/
structure SaveKwargs where
  quality : Int
  subsampling : Nat
  optimize : Bool
  progressive : Bool
  exif : Option Bytes
  icc_profile : Option Bytes
deriving DecidableEq, Repr

/-- Builds the save kwargs exactly as `_save_jpeg` does: a byte payload is
embedded only if it is present and non-empty (Python truthiness of bytes). -/
def save_jpeg_kwargs (quality : Int) (subsampling : Nat)
    (optimize progressive : Bool) (exif icc_profile : Option Bytes) : SaveKwargs :=
  { quality := quality
    subsampling := subsampling
    optimize := optimize
    progressive := progressive
    exif :=
      match exif with
      | some b => if b.length = 0 then Option.none else some b
      | Option.none => Option.none
    icc_profile :=
      match icc_profile with
      | some b => if b.length = 0 then Option.none else some b
      | Option.none => Option.none }

/-- Events logged by the embedding of `_convert_one`, in chronological order.
`unlinkSrcAttempt` records the destination content at the moment the source
unlink is attempted. -/
inductive Ev
  | openSrc
  | saveAttempt (kw : SaveKwargs)
  | unlinkSrcAttempt (dstAtMoment : Option Bytes)
  | unlinkDstAttempt
deriving DecidableEq, Repr

/-- Oracle for the ImageCms capability used by `_convert_to_srgb`:
availability of the module, the result of building the sRGB profile, of
parsing the source profile, of coercing the image to RGB mode, and of the
profile-to-profile transform. -/
structure CMS where
  have_cms : Bool
  createSRGB : Except Err Bytes
  openProfile : Bytes → Except Err Prof
  ensureRGB : Img → Except Err Img
  profileToProfile : Img → Prof → Except Err Img

/-- Behaviour of one `im.save` call: whether it raised, and the destination
content after the call (none = no file was left at the destination). -/
structure SaveSpec where
  raised : Option Err
  dstAfter : Option Bytes

/-- Oracle for every external call `_convert_one` makes.  Each fallible call
either returns a value or raises an error that the worker catches (the codec
contract of the specification: decode, transform and encode errors surface as
the caught exception classes). -/
structure Oracle where
  decode : Option Bytes → Except Err Img
  exifTranspose : Img → Except Err Img
  exifBytes : Img → Except Err Bytes
  getIcc : Img → Option Bytes
  orientFlatten : Img → Except Err Img
  cms : CMS
  save : SaveSpec
  unlinkSrcErr : Option Err
  unlinkDstErr : Option Err

/-- Embedding of `_convert_to_srgb` (heic2jpg.py lines 118-147).  All failures
of the CMS calls are caught inside the function: no error escapes, and on a
transform failure the original image/profile pair survives (note that a
failure of `profileToProfile` returns the image already coerced to RGB, as
the Python local `im` was reassigned before the raise). -/
def convert_to_srgb (cms : CMS) (im : Img) (src_icc : Option Bytes) :
    Img × Option Bytes :=
  if !cms.have_cms then (im, src_icc)
  else
    match cms.createSRGB with
    | Except.error _ => (im, src_icc)
    | Except.ok srgb_bytes =>
      match src_icc with
      | some icc =>
        match cms.openProfile icc with
        | Except.error _ => (im, some icc)
        | Except.ok src_prof =>
          match cms.ensureRGB im with
          | Except.error _ => (im, some icc)
          | Except.ok imR =>
            match cms.profileToProfile imR src_prof with
            | Except.error _ => (imR, some icc)
            | Except.ok imS => (imS, some srgb_bytes)
      | Option.none => (im, some srgb_bytes)

/-- Result of one worker invocation: the returned (status, src, message)
triple, the file system after the call, and the chronological event log. -/
structure ConvResult where
  status : Status
  src : String
  msg : String
  fs : FS
  log : List Ev

/-- The failure cleanup of `_convert_one` (heic2jpg.py lines 237-242 and
246-250): `try: if dst_path.exists(): dst_path.unlink() except: pass`,
followed by returning a failed outcome with the given message. -/
def cleanup_fail (o : Oracle) (fs : FS) (log : List Ev) (src dst msg : String) :
    ConvResult :=
  if (fs dst).isSome then
    match o.unlinkDstErr with
    | some _ => ⟨Status.failed, src, msg, fs, log ++ [Ev.unlinkDstAttempt]⟩
    | Option.none =>
        ⟨Status.failed, src, msg, FS.set fs dst Option.none,
          log ++ [Ev.unlinkDstAttempt]⟩
  else ⟨Status.failed, src, msg, fs, log⟩

/-- Embedding of the worker `_convert_one` (heic2jpg.py lines 175-251).
Stages in order: skip check, decode (`Image.open`), orientation fix
(`ImageOps.exif_transpose`), EXIF extraction, flattening, the `--icc` branch,
`_save_jpeg`, then verify-then-delete.  Any caught error routes through
`cleanup_fail`. -/
def convert_one (o : Oracle) (fs0 : FS) (src : String) (overwrite : Bool)
    (quality : Int) (subsampling : Nat) (optimize progressive : Bool)
    (icc_mode : IccMode) : ConvResult :=
  let dst := with_suffix_jpg src
  if (fs0 dst).isSome && !overwrite then
    ⟨Status.skipped, src, "destination exists", fs0, []⟩
  else
    match o.decode (fs0 src) with
    | Except.error e => cleanup_fail o fs0 [Ev.openSrc] src dst e
    | Except.ok im0 =>
      match o.exifTranspose im0 with
      | Except.error e => cleanup_fail o fs0 [Ev.openSrc] src dst e
      | Except.ok im1 =>
        match o.exifBytes im1 with
        | Except.error e => cleanup_fail o fs0 [Ev.openSrc] src dst e
        | Except.ok exif_bytes =>
          let src_icc := o.getIcc im1
          match o.orientFlatten im1 with
          | Except.error e => cleanup_fail o fs0 [Ev.openSrc] src dst e
          | Except.ok im2 =>
            let pr : Img × Option Bytes :=
              match icc_mode with
              | IccMode.srgb => convert_to_srgb o.cms im2 src_icc
              | IccMode.keep => (im2, src_icc)
              | IccMode.none => (im2, Option.none)
            let kw := save_jpeg_kwargs quality subsampling optimize progressive
              (if exif_bytes.length = 0 then Option.none else some exif_bytes) pr.2
            let log1 := [Ev.openSrc, Ev.saveAttempt kw]
            let fs1 := FS.set fs0 dst o.save.dstAfter
            match o.save.raised with
            | some e => cleanup_fail o fs1 log1 src dst e
            | Option.none =>
              match fs1 dst with
              | some content =>
                if 0 < content.length then
                  let log2 := log1 ++ [Ev.unlinkSrcAttempt (some content)]
                  match o.unlinkSrcErr with
                  | some del_err =>
                      ⟨Status.converted, src,
                        dst ++ " (warning: could not delete source: " ++ del_err ++ ")",
                        fs1, log2⟩
                  | Option.none =>
                      ⟨Status.converted, src, dst, FS.set fs1 src Option.none, log2⟩
                else cleanup_fail o fs1 log1 src dst "empty or missing output"
              | Option.none => cleanup_fail o fs1 log1 src dst "empty or missing output"

/-- The recognized extension set (heic2jpg.py line 69). -/
def HEIF_EXTS : List String := [".heic", ".heif", ".heics", ".heifs"]

/-- A root path handed to discovery: a directory (with the list of file paths
of its recursive tree) or a plain file. -/
inductive Root
  | dir (files : List String)
  | file (path : String)

/-- `p.rglob("*" + ext)`: the files of the tree whose name ends with `ext`,
matched case-sensitively, as POSIX rglob does. -/
def rglob_ext (files : List String) (ext : String) : List String :=
  files.filter (fun f => ends_with f ext)

/-- The per-root collection step of `find_heif_files` (heic2jpg.py lines
79-85): a directory is globbed once per extension in lowercase and once in
uppercase; a plain file is matched case-insensitively on its suffix. -/
def collect (r : Root) : List String :=
  match r with
  | Root.dir files =>
      HEIF_EXTS.foldr
        (fun ext acc => rglob_ext files ext ++ rglob_ext files (upperStr ext) ++ acc) []
  | Root.file p => if lowerStr (suffixOf p) ∈ HEIF_EXTS then [p] else []

/-- Lexicographic comparison of lowercased paths: the sort key
`key=lambda x: str(x).lower()` of heic2jpg.py line 88. -/
def lowerLe (a b : String) : Prop :=
  List.Lex (fun c d : Char => c < d) (lowerStr a).data (lowerStr b).data
    ∨ (lowerStr a).data = (lowerStr b).data

instance : DecidableRel lowerLe := fun a b => by
  unfold lowerLe
  infer_instance

/-- Embedding of `find_heif_files` (heic2jpg.py lines 77-88): collect per
root, deduplicate by resolved path (paths are taken already canonical, so
resolution is the identity), and sort by lowercased path. -/
def find_heif_files (roots : List Root) : List String :=
  let files := roots.foldr (fun r acc => collect r ++ acc) []
  List.insertionSort lowerLe files.dedup

/-- The counters of `main` (heic2jpg.py line 293): converted, skipped, failed. -/
structure Counts where
  ok : Nat
  skipped : Nat
  failed : Nat
deriving DecidableEq, Repr

/-- One iteration of the tally in the completion-draining loop (heic2jpg.py
lines 317-322): exactly one counter is incremented per drained outcome. -/
def bump (c : Counts) : Status → Counts
  | Status.converted => { c with ok := c.ok + 1 }
  | Status.skipped => { c with skipped := c.skipped + 1 }
  | Status.failed => { c with failed := c.failed + 1 }

/-- The completion-draining loop of `main` (heic2jpg.py lines 315-339):
outcomes are drained in completion order; after each drained outcome the
cooperative stop flag is consulted and, when set, the loop cancels the
remaining futures and breaks.  `stop i` is the flag value observed after
draining the outcome of index `i`. -/
def drain (stop : Nat → Bool) : Nat → Counts → List Status → Counts
  | _, acc, [] => acc
  | i, acc, s :: rest =>
    let acc2 := bump acc s
    if stop i then acc2 else drain stop (i + 1) acc2 rest

/-- The final tally printed by `main` (heic2jpg.py line 349). -/
def finalTally (stop : Nat → Bool) (completions : List Status) : Counts :=
  drain stop 0 ⟨0, 0, 0⟩ completions

/-- Default JPEG quality (heic2jpg.py line 70). -/
def DEFAULT_QUALITY : Int := 92

/-- Default chroma subsampling (heic2jpg.py line 71). -/
def DEFAULT_SUBSAMPLING : Nat := 2

/-- Default optimize flag (heic2jpg.py line 72). -/
def DEFAULT_OPTIMIZE : Bool := true

/-- Default progressive flag (heic2jpg.py line 73). -/
def DEFAULT_PROGRESSIVE : Bool := true

/-- The argument tuple `main` submits to `_convert_one` for one file. -/
structure WorkerArgs where
  src : String
  overwrite : Bool
  quality : Int
  subsampling : Nat
  optimize : Bool
  progressive : Bool
  icc : IccMode
deriving DecidableEq, Repr

/-- The submission map of `main` (heic2jpg.py lines 300-312): every discovered
file is submitted with the shared configuration, the quality being
`max(1, min(100, args.quality))`. -/
def submissions (files : List String) (overwrite : Bool) (quality : Int)
    (icc : IccMode) : List WorkerArgs :=
  files.map (fun p =>
    ⟨p, overwrite, max 1 (min 100 quality), DEFAULT_SUBSAMPLING, DEFAULT_OPTIMIZE,
      DEFAULT_PROGRESSIVE, icc⟩)

/-- Recognizes the source-unlink event, for counting unlink attempts. -/
def is_unlink_src : Ev → Bool
  | Ev.unlinkSrcAttempt _ => true
  | _ => false

/-! ### Concrete fixtures used to instantiate the theorems -/

/-- A file system holding only the source file `a.heic`. -/
def fsA : FS := fun p => if p = "a.heic" then some [1, 2, 3] else Option.none

/-- A file system holding the source `a.heic` and a pre-existing `a.jpg`. -/
def fsB : FS :=
  fun p =>
    if p = "a.heic" then some [1, 2, 3]
    else if p = "a.jpg" then some [5] else Option.none

/-- An oracle on which every external call succeeds. -/
def oA : Oracle :=
  { decode := fun _ => Except.ok 0
    exifTranspose := fun i => Except.ok i
    exifBytes := fun _ => Except.ok [9]
    getIcc := fun _ => some [4, 4]
    orientFlatten := fun i => Except.ok i
    cms :=
      { have_cms := true
        createSRGB := Except.ok [8]
        openProfile := fun _ => Except.ok 0
        ensureRGB := fun i => Except.ok i
        profileToProfile := fun i _ => Except.ok i }
    save := { raised := Option.none, dstAfter := some [7] }
    unlinkSrcErr := Option.none
    unlinkDstErr := Option.none }

/-- Like `oA` but decoding raises (a corrupt source file). -/
def oDecodeErr : Oracle :=
  { oA with decode := fun _ => Except.error "UnidentifiedImageError" }

/-- Like `oA` but the source unlink raises. -/
def oDelSrcErr : Oracle := { oA with unlinkSrcErr := some "PermissionError" }

/-- Like `oA` but the save raises after a partial destination write. -/
def oSaveRaise : Oracle :=
  { oA with save := { raised := some "OSError", dstAfter := some [1] } }

/-- Like `oSaveRaise` but the destination cleanup unlink also raises. -/
def oSaveRaiseStuck : Oracle := { oSaveRaise with unlinkDstErr := some "PermissionError" }

/-- Like `oA` but the profile-to-profile color transform raises. -/
def oCmsFail : Oracle :=
  { oA with
    cms :=
      { have_cms := true
        createSRGB := Except.ok [8]
        openProfile := fun _ => Except.ok 0
        ensureRGB := fun i => Except.ok i
        profileToProfile := fun _ _ => Except.error "PyCMSError" } }

/-! ### Helper lemmas about the failure cleanup -/

/-- The failure cleanup always returns a failed outcome. -/
@[simp]
lemma cleanup_fail_status (o : Oracle) (fs : FS) (log : List Ev) (src dst msg : String) :
    (cleanup_fail o fs log src dst msg).status = Status.failed := by
  unfold cleanup_fail
  split
  · split <;> rfl
  · rfl

/-- The failure cleanup reports the message it was given. -/
@[simp]
lemma cleanup_fail_msg (o : Oracle) (fs : FS) (log : List Ev) (src dst msg : String) :
    (cleanup_fail o fs log src dst msg).msg = msg := by
  unfold cleanup_fail
  split
  · split <;> rfl
  · rfl

/-- When the destination unlink does not raise, the failure cleanup leaves no
file at the destination path. -/
@[simp]
lemma cleanup_fail_fs_dst_none (o : Oracle) (fs : FS) (log : List Ev)
    (src dst msg : String) (h : o.unlinkDstErr = Option.none) :
    (cleanup_fail o fs log src dst msg).fs dst = Option.none := by
  unfold cleanup_fail
  split
  · rw [h]
    simp [FS.set]
  · simp_all [Option.not_isSome_iff_eq_none]

/-- The failure cleanup never logs a source-unlink event (log starting from
the open event). -/
@[simp]
lemma unlinkSrc_notin_cleanup1 (o : Oracle) (fs : FS) (src dst msg : String)
    (c : Option Bytes) :
    Ev.unlinkSrcAttempt c ∉ (cleanup_fail o fs [Ev.openSrc] src dst msg).log := by
  unfold cleanup_fail
  split
  · split <;> simp
  · simp

/-- The failure cleanup never logs a source-unlink event (log starting from
the open and save events). -/
@[simp]
lemma unlinkSrc_notin_cleanup2 (o : Oracle) (fs : FS) (src dst msg : String)
    (kw : SaveKwargs) (c : Option Bytes) :
    Ev.unlinkSrcAttempt c ∉
      (cleanup_fail o fs [Ev.openSrc, Ev.saveAttempt kw] src dst msg).log := by
  unfold cleanup_fail
  split
  · split <;> simp
  · simp

/-- Draining with the stop flag never set counts every completed outcome in
exactly one bucket. -/
lemma drain_no_stop_sum (l : List Status) : ∀ (i : Nat) (acc : Counts),
    (drain (fun _ => false) i acc l).ok + (drain (fun _ => false) i acc l).skipped
      + (drain (fun _ => false) i acc l).failed
      = acc.ok + acc.skipped + acc.failed + l.length := by
  induction l with
  | nil => intro i acc; simp [drain]
  | cons s rest ih =>
    intro i acc
    cases s <;> simp [drain, bump, ih] <;> omega

/-- Helper: a failed outcome of the worker, when the destination cleanup
unlink does not raise, leaves no file at the destination path. -/
lemma convert_one_failed_dst_none (o : Oracle) (fs0 : FS) (src : String)
    (ow : Bool) (q : Int) (ss : Nat) (opt prog : Bool) (mode : IccMode)
    (hdel : o.unlinkDstErr = Option.none)
    (hfail : (convert_one o fs0 src ow q ss opt prog mode).status = Status.failed) :
    (convert_one o fs0 src ow q ss opt prog mode).fs (with_suffix_jpg src)
      = Option.none := by
  unfold convert_one at hfail ⊢
  by_cases hskip : ((fs0 (with_suffix_jpg src)).isSome && !ow) = true
  · rw [if_pos hskip] at hfail
    simp at hfail
  · rw [if_neg hskip] at hfail ⊢
    repeat' split at hfail
    all_goals try simp_all
    all_goals repeat' split at hfail
    all_goals simp_all

/-! ### Claim theorems -/

/-- C1: in the verify-then-delete stage, the source file is never deleted
unless a destination file of non-zero size exists at the moment of deletion.
Whenever a source-unlink event appears in the log of `convert_one`, the save
did not raise, the destination content recorded at the moment of the unlink
attempt is present with positive size, and the log shows the unlink strictly
after the open and save events. -/
theorem C1_delete_only_after_verify (o : Oracle) (fs0 : FS) (src : String)
    (overwrite : Bool) (q : Int) (ss : Nat) (opt prog : Bool) (mode : IccMode)
    (c : Option Bytes)
    (hmem : Ev.unlinkSrcAttempt c ∈
      (convert_one o fs0 src overwrite q ss opt prog mode).log) :
    o.save.raised = Option.none ∧ (∃ b, c = some b ∧ 0 < b.length)
    ∧ ∃ kw, (convert_one o fs0 src overwrite q ss opt prog mode).log
        = [Ev.openSrc, Ev.saveAttempt kw, Ev.unlinkSrcAttempt c] := by
  unfold convert_one at hmem ⊢
  by_cases hskip : ((fs0 (with_suffix_jpg src)).isSome && !overwrite) = true
  · rw [if_pos hskip] at hmem
    simp at hmem
  · rw [if_neg hskip] at hmem ⊢
    repeat' split at hmem
    all_goals try simp_all
    all_goals repeat' split at hmem
    all_goals simp_all

/-- C1 witness: on the all-success oracle the source unlink is logged, and the
theorem yields the verified non-empty destination at that moment. -/
theorem C1_delete_only_after_verify_witness :
    oA.save.raised = Option.none
    ∧ (∃ b, (some [7] : Option Bytes) = some b ∧ 0 < b.length)
    ∧ ∃ kw, (convert_one oA fsA "a.heic" false 92 2 true true IccMode.srgb).log
        = [Ev.openSrc, Ev.saveAttempt kw, Ev.unlinkSrcAttempt (some [7])] :=
  C1_delete_only_after_verify oA fsA "a.heic" false 92 2 true true IccMode.srgb
    (some [7]) (by decide)

/-- C2 counterexample: two items are dispatched and both complete as
converted, but the stop flag is observed after the first drained outcome; the
final tally then counts a single item — the other dispatched item is in no
bucket of the final count (the code reports no "not attempted" bucket), though
it is also not counted as failed. -/
theorem C2_exactly_one_outcome_counterexample :
    finalTally (fun _ => true) [Status.converted, Status.converted]
      = { ok := 1, skipped := 0, failed := 0 }
    ∧ (finalTally (fun _ => true) [Status.converted, Status.converted]).ok
      + (finalTally (fun _ => true) [Status.converted, Status.converted]).skipped
      + (finalTally (fun _ => true) [Status.converted, Status.converted]).failed
      ≠ 2 := by
  decide

/-- C2 amended: when cancellation is never requested, every dispatched item is
drained and counted in exactly one of the three buckets, so the final counts
sum to the number of completions; under cancellation the loop breaks and the
undrained dispatched items are absent from the final tally (they are dropped,
not counted as failed, and no separate "not attempted" bucket is reported). -/
theorem C2_exactly_one_outcome_amended (l : List Status) :
    (finalTally (fun _ => false) l).ok + (finalTally (fun _ => false) l).skipped
      + (finalTally (fun _ => false) l).failed = l.length := by
  have h := drain_no_stop_sum l 0 ⟨0, 0, 0⟩
  simpa [finalTally] using h

/-- C4: when the destination exists and overwrite is false, the worker returns
skipped with reason "destination exists", performs no event at all (in
particular no open/decode of the source), leaves the file system untouched,
and re-running from the resulting file system reproduces the same outcome. -/
theorem C4_skip_short_circuit (o : Oracle) (fs0 : FS) (src : String)
    (q : Int) (ss : Nat) (opt prog : Bool) (mode : IccMode)
    (hdst : (fs0 (with_suffix_jpg src)).isSome = true) :
    convert_one o fs0 src false q ss opt prog mode
      = ⟨Status.skipped, src, "destination exists", fs0, []⟩
    ∧ Ev.openSrc ∉ (convert_one o fs0 src false q ss opt prog mode).log
    ∧ convert_one o (convert_one o fs0 src false q ss opt prog mode).fs src false
        q ss opt prog mode
      = convert_one o fs0 src false q ss opt prog mode := by
  have h1 : convert_one o fs0 src false q ss opt prog mode
      = ⟨Status.skipped, src, "destination exists", fs0, []⟩ := by
    unfold convert_one
    simp [hdst]
  have hfs : (convert_one o fs0 src false q ss opt prog mode).fs = fs0 := by
    rw [h1]
  refine ⟨h1, ?_, ?_⟩
  · rw [h1]
    simp
  · rw [hfs]

/-- C4 witness: with a pre-existing `a.jpg` and overwrite off, the call is a
pure skip. -/
theorem C4_skip_short_circuit_witness :
    convert_one oA fsB "a.heic" false 92 2 true true IccMode.srgb
      = ⟨Status.skipped, "a.heic", "destination exists", fsB, []⟩
    ∧ Ev.openSrc ∉ (convert_one oA fsB "a.heic" false 92 2 true true IccMode.srgb).log
    ∧ convert_one oA (convert_one oA fsB "a.heic" false 92 2 true true IccMode.srgb).fs
        "a.heic" false 92 2 true true IccMode.srgb
      = convert_one oA fsB "a.heic" false 92 2 true true IccMode.srgb :=
  C4_skip_short_circuit oA fsB "a.heic" 92 2 true true IccMode.srgb (by decide)

/-- C3: every per-item error raised during a conversion attempt — at decode,
orientation fix, EXIF extraction, flattening, encode, or the verification of
the output — is converted into a failed outcome carrying the error message
(or the fixed verification message); the worker returns an outcome in every
case rather than propagating the error. -/
theorem C3_errors_yield_failed (o : Oracle) (fs0 : FS) (src : String) (ow : Bool)
    (q : Int) (ss : Nat) (opt prog : Bool) (mode : IccMode)
    (hskip : ((fs0 (with_suffix_jpg src)).isSome && !ow) = false) :
    (∀ e, o.decode (fs0 src) = Except.error e →
      (convert_one o fs0 src ow q ss opt prog mode).status = Status.failed
      ∧ (convert_one o fs0 src ow q ss opt prog mode).msg = e)
    ∧ (∀ i0 e, o.decode (fs0 src) = Except.ok i0 →
      o.exifTranspose i0 = Except.error e →
      (convert_one o fs0 src ow q ss opt prog mode).status = Status.failed
      ∧ (convert_one o fs0 src ow q ss opt prog mode).msg = e)
    ∧ (∀ i0 i1 e, o.decode (fs0 src) = Except.ok i0 →
      o.exifTranspose i0 = Except.ok i1 → o.exifBytes i1 = Except.error e →
      (convert_one o fs0 src ow q ss opt prog mode).status = Status.failed
      ∧ (convert_one o fs0 src ow q ss opt prog mode).msg = e)
    ∧ (∀ i0 i1 eb e, o.decode (fs0 src) = Except.ok i0 →
      o.exifTranspose i0 = Except.ok i1 → o.exifBytes i1 = Except.ok eb →
      o.orientFlatten i1 = Except.error e →
      (convert_one o fs0 src ow q ss opt prog mode).status = Status.failed
      ∧ (convert_one o fs0 src ow q ss opt prog mode).msg = e)
    ∧ (∀ i0 i1 eb i2 e, o.decode (fs0 src) = Except.ok i0 →
      o.exifTranspose i0 = Except.ok i1 → o.exifBytes i1 = Except.ok eb →
      o.orientFlatten i1 = Except.ok i2 → o.save.raised = some e →
      (convert_one o fs0 src ow q ss opt prog mode).status = Status.failed
      ∧ (convert_one o fs0 src ow q ss opt prog mode).msg = e)
    ∧ (∀ i0 i1 eb i2, o.decode (fs0 src) = Except.ok i0 →
      o.exifTranspose i0 = Except.ok i1 → o.exifBytes i1 = Except.ok eb →
      o.orientFlatten i1 = Except.ok i2 → o.save.raised = Option.none →
      (o.save.dstAfter = Option.none
        ∨ ∃ cb, o.save.dstAfter = some cb ∧ cb.length = 0) →
      (convert_one o fs0 src ow q ss opt prog mode).status = Status.failed
      ∧ (convert_one o fs0 src ow q ss opt prog mode).msg
          = "empty or missing output") := by
  refine ⟨?_, ?_, ?_, ?_, ?_, ?_⟩
  · intro e h1
    unfold convert_one
    simp [hskip, h1]
  · intro i0 e h1 h2
    unfold convert_one
    simp [hskip, h1, h2]
  · intro i0 i1 e h1 h2 h3
    unfold convert_one
    simp [hskip, h1, h2, h3]
  · intro i0 i1 eb e h1 h2 h3 h4
    unfold convert_one
    simp [hskip, h1, h2, h3, h4]
  · intro i0 i1 eb i2 e h1 h2 h3 h4 h5
    unfold convert_one
    simp [hskip, h1, h2, h3, h4, h5]
  · intro i0 i1 eb i2 h1 h2 h3 h4 h5 h6
    unfold convert_one
    rcases h6 with h6 | ⟨cb, h6, hlen⟩
    · simp [hskip, h1, h2, h3, h4, h5, h6, FS.set]
    · simp [hskip, h1, h2, h3, h4, h5, h6, hlen, FS.set]

/-- C3 witness: a decode error on a corrupt source yields a failed outcome
carrying the decode error message. -/
theorem C3_errors_yield_failed_witness :
    (convert_one oDecodeErr fsA "a.heic" false 92 2 true true IccMode.srgb).status
      = Status.failed
    ∧ (convert_one oDecodeErr fsA "a.heic" false 92 2 true true IccMode.srgb).msg
      = "UnidentifiedImageError" :=
  (C3_errors_yield_failed oDecodeErr fsA "a.heic" false 92 2 true true IccMode.srgb
    (by decide)).1 "UnidentifiedImageError" rfl

/-- C5 counterexample: the save raises after a partial destination write and
the cleanup unlink of the destination also raises (the code swallows that
error); the outcome is failed yet the destination file still exists, against
the claim that the destination never exists after a failed attempt. -/
theorem C5_failed_dst_removed_counterexample :
    (convert_one oSaveRaiseStuck fsA "a.heic" false 92 2 true true IccMode.srgb).status
      = Status.failed
    ∧ (convert_one oSaveRaiseStuck fsA "a.heic" false 92 2 true true IccMode.srgb).fs
        (with_suffix_jpg "a.heic") = some [1] := by
  decide

/-- C5 amended: the worker attempts to remove the destination before
returning failed; whenever that removal does not itself raise, the
destination path holds no file after a failed attempt. -/
theorem C5_failed_dst_removed_amended (o : Oracle) (fs0 : FS) (src : String)
    (ow : Bool) (q : Int) (ss : Nat) (opt prog : Bool) (mode : IccMode)
    (hdel : o.unlinkDstErr = Option.none)
    (hfail : (convert_one o fs0 src ow q ss opt prog mode).status = Status.failed) :
    (convert_one o fs0 src ow q ss opt prog mode).fs (with_suffix_jpg src)
      = Option.none :=
  convert_one_failed_dst_none o fs0 src ow q ss opt prog mode hdel hfail

/-- C5 amended witness: the save raises after a partial write, the cleanup
unlink succeeds, and the destination is gone from the failed result. -/
theorem C5_failed_dst_removed_amended_witness :
    (convert_one oSaveRaise fsA "a.heic" false 92 2 true true IccMode.srgb).fs
      (with_suffix_jpg "a.heic") = Option.none :=
  C5_failed_dst_removed_amended oSaveRaise fsA "a.heic" false 92 2 true true
    IccMode.srgb (by decide) (by decide)

/-- C9: with overwrite enabled, when an attempt fails after the skip check the
failure cleanup deletes whatever file sits at the destination path, even a
file that existed before the call and was not written by this attempt: the
pre-existing destination is destroyed rather than left untouched. -/
theorem C9_preexisting_dst_destroyed (o : Oracle) (fs0 : FS) (src : String)
    (q : Int) (ss : Nat) (opt prog : Bool) (mode : IccMode) (b0 : Bytes)
    (hpre : fs0 (with_suffix_jpg src) = some b0)
    (hdel : o.unlinkDstErr = Option.none)
    (hfail : (convert_one o fs0 src true q ss opt prog mode).status = Status.failed) :
    (convert_one o fs0 src true q ss opt prog mode).fs (with_suffix_jpg src)
      = Option.none
    ∧ (convert_one o fs0 src true q ss opt prog mode).fs (with_suffix_jpg src)
      ≠ fs0 (with_suffix_jpg src) := by
  have h := convert_one_failed_dst_none o fs0 src true q ss opt prog mode hdel hfail
  exact ⟨h, by rw [h, hpre]; simp⟩

/-- C9 witness: a pre-existing `a.jpg`, overwrite on, and a decode failure:
the pre-existing destination file is deleted by the failure cleanup. -/
theorem C9_preexisting_dst_destroyed_witness :
    (convert_one oDecodeErr fsB "a.heic" true 92 2 true true IccMode.srgb).fs
      (with_suffix_jpg "a.heic") = Option.none
    ∧ (convert_one oDecodeErr fsB "a.heic" true 92 2 true true IccMode.srgb).fs
      (with_suffix_jpg "a.heic") ≠ fsB (with_suffix_jpg "a.heic") :=
  C9_preexisting_dst_destroyed oDecodeErr fsB "a.heic" 92 2 true true IccMode.srgb
    [5] (by decide) (by decide) (by decide)

/-- C6: in srgb mode with a source profile present, a failing
profile-to-profile transform does not fail the item: when every remaining
stage succeeds the outcome is converted, and the save is invoked with the
original profile bytes embedded unchanged. -/
theorem C6_profile_fallback (o : Oracle) (fs0 : FS) (src : String) (ow : Bool)
    (q : Int) (ss : Nat) (opt prog : Bool) (i0 i1 i2 i2r : Img) (p : Prof)
    (eb icc sb cb : Bytes) (e : Err)
    (hskip : ((fs0 (with_suffix_jpg src)).isSome && !ow) = false)
    (hdec : o.decode (fs0 src) = Except.ok i0)
    (htr : o.exifTranspose i0 = Except.ok i1)
    (hex : o.exifBytes i1 = Except.ok eb)
    (hicc : o.getIcc i1 = some icc)
    (hne : icc ≠ [])
    (hfl : o.orientFlatten i1 = Except.ok i2)
    (hcms : o.cms.have_cms = true)
    (hcr : o.cms.createSRGB = Except.ok sb)
    (hop : o.cms.openProfile icc = Except.ok p)
    (hrgb : o.cms.ensureRGB i2 = Except.ok i2r)
    (hp2p : o.cms.profileToProfile i2r p = Except.error e)
    (hsave : o.save.raised = Option.none)
    (hdst : o.save.dstAfter = some cb)
    (hcb : 0 < cb.length) :
    (convert_one o fs0 src ow q ss opt prog IccMode.srgb).status = Status.converted
    ∧ ∃ kw, Ev.saveAttempt kw ∈ (convert_one o fs0 src ow q ss opt prog IccMode.srgb).log
        ∧ kw.icc_profile = some icc := by
  have h1 : convert_to_srgb o.cms i2 (some icc) = (i2r, some icc) := by
    unfold convert_to_srgb
    simp [hcms, hcr, hop, hrgb, hp2p]
  unfold convert_one
  rw [if_neg (by simp [hskip])]
  rcases hun : o.unlinkSrcErr with _ | e2 <;>
    simp [hdec, htr, hex, hfl, hicc, h1, hsave, hdst, hcb, hun, FS.set,
      save_jpeg_kwargs, List.length_eq_zero, hne]

/-- C6 witness: on the oracle whose color transform raises, the item converts
and the original profile bytes are handed to the save. -/
theorem C6_profile_fallback_witness :
    (convert_one oCmsFail fsA "a.heic" false 92 2 true true IccMode.srgb).status
      = Status.converted
    ∧ ∃ kw, Ev.saveAttempt kw
        ∈ (convert_one oCmsFail fsA "a.heic" false 92 2 true true IccMode.srgb).log
        ∧ kw.icc_profile = some [4, 4] :=
  C6_profile_fallback oCmsFail fsA "a.heic" false 92 2 true true 0 0 0 0 0
    [9] [4, 4] [8] [7] "PyCMSError" (by decide) rfl rfl rfl rfl (by decide) rfl
    (by decide) rfl rfl rfl rfl (by decide) rfl (by decide)

/-- C7: when the converted outcome coincides with a raising source unlink, the
message is the destination path plus a warning that the source could not be
deleted, the unlink was attempted exactly once (never re-attempted), and the
file system still holds the source (only the destination write happened);
conversely a converted outcome without an unlink error carries the plain
destination path — the delete warning is the only converted-with-error case. -/
theorem C7_delete_warning (o : Oracle) (fs0 : FS) (src : String) (ow : Bool)
    (q : Int) (ss : Nat) (opt prog : Bool) (mode : IccMode)
    (hconv : (convert_one o fs0 src ow q ss opt prog mode).status = Status.converted) :
    (∀ e, o.unlinkSrcErr = some e →
      (convert_one o fs0 src ow q ss opt prog mode).msg
        = with_suffix_jpg src ++ " (warning: could not delete source: " ++ e ++ ")"
      ∧ ((convert_one o fs0 src ow q ss opt prog mode).log.filter is_unlink_src).length
          = 1
      ∧ (convert_one o fs0 src ow q ss opt prog mode).fs
          = FS.set fs0 (with_suffix_jpg src) o.save.dstAfter)
    ∧ (o.unlinkSrcErr = Option.none →
      (convert_one o fs0 src ow q ss opt prog mode).msg = with_suffix_jpg src) := by
  unfold convert_one at hconv ⊢
  by_cases hskip : ((fs0 (with_suffix_jpg src)).isSome && !ow) = true
  · rw [if_pos hskip] at hconv
    simp at hconv
  · rw [if_neg hskip] at hconv ⊢
    repeat' split at hconv
    all_goals try simp_all [is_unlink_src]
    all_goals repeat' split at hconv
    all_goals simp_all [is_unlink_src]

/-- C7 witness: with a raising source unlink the outcome is converted with the
warning message, one unlink attempt, and the source left in place. -/
theorem C7_delete_warning_witness :
    ((convert_one oDelSrcErr fsA "a.heic" false 92 2 true true IccMode.srgb).msg
        = with_suffix_jpg "a.heic" ++ " (warning: could not delete source: "
          ++ "PermissionError" ++ ")"
      ∧ ((convert_one oDelSrcErr fsA "a.heic" false 92 2 true true
            IccMode.srgb).log.filter is_unlink_src).length = 1
      ∧ (convert_one oDelSrcErr fsA "a.heic" false 92 2 true true IccMode.srgb).fs
          = FS.set fsA (with_suffix_jpg "a.heic") oDelSrcErr.save.dstAfter) :=
  (C7_delete_warning oDelSrcErr fsA "a.heic" false 92 2 true true IccMode.srgb
    (by decide)).1 "PermissionError" rfl

/-- C8: the recognized extensions are meant case-insensitively (the source
comments the set with "case-insensitive", and files passed directly are
matched on the lowercased suffix), but directory traversal only globs the
all-lowercase and all-uppercase spellings: a file with the mixed-case
extension `.HeiC` has a recognized suffix under case-insensitive comparison
yet is absent from the discovered list, while its lowercase spelling is
found. -/
theorem C8_discovery_mixed_case_missed :
    lowerStr (suffixOf "IMG_0001.HeiC") ∈ HEIF_EXTS
    ∧ find_heif_files [Root.dir ["IMG_0001.HeiC"]] = []
    ∧ find_heif_files [Root.dir ["IMG_0001.heic"]] = ["IMG_0001.heic"] := by
  decide

/-- C10: every worker submission of `main` carries the quality
`max(1, min(100, q))`, which lies in the interval from 1 to 100. -/
theorem C10_quality_clamped (files : List String) (ow : Bool) (q : Int)
    (icc : IccMode) (a : WorkerArgs) (ha : a ∈ submissions files ow q icc) :
    a.quality = max 1 (min 100 q) ∧ 1 ≤ a.quality ∧ a.quality ≤ 100 := by
  rcases List.mem_map.1 ha with ⟨p, hp, rfl⟩
  refine ⟨rfl, le_max_left _ _, ?_⟩
  exact max_le (by norm_num) (min_le_left _ _)

/-- C10 witness: for the out-of-range request 1000 the submitted quality is
the clamped value. -/
theorem C10_quality_clamped_witness :
    (⟨"a.heic", false, max 1 (min 100 1000), DEFAULT_SUBSAMPLING, DEFAULT_OPTIMIZE,
        DEFAULT_PROGRESSIVE, IccMode.srgb⟩ : WorkerArgs).quality = max 1 (min 100 1000)
    ∧ 1 ≤ (⟨"a.heic", false, max 1 (min 100 1000), DEFAULT_SUBSAMPLING,
        DEFAULT_OPTIMIZE, DEFAULT_PROGRESSIVE, IccMode.srgb⟩ : WorkerArgs).quality
    ∧ (⟨"a.heic", false, max 1 (min 100 1000), DEFAULT_SUBSAMPLING, DEFAULT_OPTIMIZE,
        DEFAULT_PROGRESSIVE, IccMode.srgb⟩ : WorkerArgs).quality ≤ 100 :=
  C10_quality_clamped ["a.heic"] false 1000 IccMode.srgb _ (by simp [submissions])

end Heic2Jpg
